import Mathlib

/-!
Verification of the authentication/session-token core of the
Seminari_JWT backend: the JWT handle module (generateToken, verifyToken,
generateRefreshToken, verifyRefreshToken) and the auth controllers
(registerCtrl, loginCtrl, googleAuthCtrl, googleAuthCallback, and the
POST /auth/refresh route handler).

JWTs are modelled shallowly: a token is either a signed record of claims
together with the signing secret and the absolute expiry time, or a
malformed string.  The jsonwebtoken library contract is modelled by
`sign` and `verify`: `verify` checks the signature (secret equality)
first and then the expiry (`exp <= now` fails, as the library fails when
the clock timestamp reaches `exp`).  Times are in seconds.

The service layer (registerNewUser, loginUser, googleAuth) and the user
store (UserModel.findById) are collaborators of the controllers; the
controller functions are parametrised over their outcomes, with `Except
String` standing for a promise that can reject with an error message.
-/

namespace SeminariJWT

/-- Claims carried in a JWT payload.  Tokens in this system are signed
with object payloads `{id, email}` (access) or `{id}` (refresh); a field
that is absent from the payload is `none`. -/
structure JwtClaims where
  id : Option String
  email : Option String
deriving DecidableEq

/-- A JWT as the verifier sees it: either a well-formed token signed with
some secret and carrying an absolute expiry timestamp, or a malformed
string that fails decoding. -/
inductive Token where
  | signed (claims : JwtClaims) (secret : String) (exp : Nat)
  | malformed (raw : String)
deriving DecidableEq

/-- Failure modes of jsonwebtoken's verify. -/
inductive JwtError where
  | malformedToken
  | invalidSignature
  | expired
deriving DecidableEq

/-- The absolute expiry timestamp embedded in a token (0 for a malformed
token, which carries none). -/
def Token.expiry : Token → Nat
  | .signed _ _ e => e
  | .malformed _ => 0

/-- jsonwebtoken sign: embeds the claims, the secret and the expiry
`now + lifetime` (the `expiresIn` option). -/
def sign (claims : JwtClaims) (secret : String) (now lifetimeSecs : Nat) : Token :=
  Token.signed claims secret (now + lifetimeSecs)

/-- jsonwebtoken verify: rejects a malformed token, then checks the
signature, then the expiry; on success returns the decoded claims. -/
def verify (t : Token) (secret : String) (now : Nat) : Except JwtError JwtClaims :=
  match t with
  | .malformed _ => .error .malformedToken
  | .signed claims s e =>
    if s = secret then
      if e ≤ now then .error .expired else .ok claims
    else .error .invalidSignature

/-- `const JWT_SECRET = process.env.JWT_SECRET || "token.010101010101"`:
the process-wide secret, with the hardcoded fallback used when the
environment value is unset or empty (JS falsiness of strings). -/
def JWT_SECRET (env : Option String) : String :=
  match env with
  | some s => if s = "" then "token.010101010101" else s
  | none => "token.010101010101"

/-- `generateToken(id, email)`: access token over `{id, email}`, signed
with JWT_SECRET, `expiresIn: '1h'` (3600 seconds). -/
def generateToken (env : Option String) (id email : String) (now : Nat) : Token :=
  sign ⟨some id, some email⟩ (JWT_SECRET env) now 3600

/-- `verifyToken(jwt)`: verifies against JWT_SECRET; failures propagate
(no try/catch). -/
def verifyToken (env : Option String) (t : Token) (now : Nat) : Except JwtError JwtClaims :=
  verify t (JWT_SECRET env) now

/-- `generateRefreshToken(id)`: refresh token over `{id}`, signed with
JWT_SECRET, `expiresIn: '7d'` (604800 seconds). -/
def generateRefreshToken (env : Option String) (id : String) (now : Nat) : Token :=
  sign ⟨some id, none⟩ (JWT_SECRET env) now 604800

/-- `verifyRefreshToken(refreshToken)`: verifies against JWT_SECRET
inside try/catch, returning null on any failure. -/
def verifyRefreshToken (env : Option String) (t : Token) (now : Nat) : Option JwtClaims :=
  match verify t (JWT_SECRET env) now with
  | .ok p => some p
  | .error _ => none

/-- The user record as the token flow reads it from the store. -/
structure User where
  id : String
  email : String
deriving DecidableEq

/-- A cookie as set by `res.cookie(name, value, options)` in the
controllers (all of them use httpOnly, secure: false, sameSite 'none'
and a maxAge in milliseconds). -/
structure Cookie where
  name : String
  value : String
  httpOnly : Bool
  secure : Bool
  sameSite : String
  maxAge : Nat
deriving DecidableEq

/-- The body a controller response carries. -/
inductive RespBody where
  | msg (m : String)
  | jsonUser (u : User)
  | loginOk (user : User) (token refreshToken : String)
  | newToken (t : Token)
  | redirect (url : String)
deriving DecidableEq

/-- An HTTP response: status code, cookies set on it, and body.  A
redirect is status 302 with a `redirect` body (Express res.redirect). -/
structure Response where
  status : Nat
  cookies : List Cookie
  body : RespBody
deriving DecidableEq

/-- Outcome of `loginUser` as the controller discriminates it: the
sentinel strings INCORRECT_PASSWORD and NOT_FOUND_USER, or the
authenticated record with both minted tokens. -/
inductive LoginResult where
  | incorrectPassword
  | notFoundUser
  | authenticated (user : User) (token refreshToken : String)
deriving DecidableEq

/-- `registerCtrl`: res.json of the service result on success, 500 with
the error message on a rejected promise. -/
def registerCtrl (result : Except String User) : Response :=
  match result with
  | .ok u => ⟨200, [], .jsonUser u⟩
  | .error m => ⟨500, [], .msg m⟩

/-- `loginCtrl`: maps the loginUser outcome to 403/404/200 with the two
session cookies, catching a rejected promise as 500. -/
def loginCtrl (result : Except String LoginResult) : Response :=
  match result with
  | .error e => ⟨500, [], .msg e⟩
  | .ok .incorrectPassword => ⟨403, [], .msg "Contraseña incorrecta"⟩
  | .ok .notFoundUser => ⟨404, [], .msg "Usuario no encontrado"⟩
  | .ok (.authenticated u t rt) =>
    ⟨200,
      [⟨"token", t, true, false, "none", 86400000⟩,
        ⟨"refreshToken", rt, true, false, "none", 7 * 24 * 60 * 60 * 1000⟩],
      .loginOk u t rt⟩

/-- JS falsiness of an optional string environment value or request
field: absent or the empty string. -/
def falsyStr (o : Option String) : Bool :=
  match o with
  | none => true
  | some s => s = ""

/-- The POST /auth/refresh route handler.  `findById` is the awaited
`UserModel.findById` call, which may reject (the only suspension point
inside the try block; `verifyRefreshToken` itself never throws). -/
def refreshPost (findById : String → Except String (Option User)) (env : Option String)
    (now : Nat) (refreshToken : Option Token) : Response :=
  match refreshToken with
  | none => ⟨400, [], .msg "Refresh token es requerido"⟩
  | some rt =>
    match verifyRefreshToken env rt now with
    | none => ⟨401, [], .msg "Refresh token inválido o expirado"⟩
    | some payload =>
      match payload.id with
      | none => ⟨401, [], .msg "Refresh token inválido o expirado"⟩
      | some pid =>
        match findById pid with
        | .error _ => ⟨500, [], .msg "Error interno del servidor"⟩
        | .ok none => ⟨401, [], .msg "Usuario no encontrado"⟩
        | .ok (some user) => ⟨200, [], .newToken (generateToken env user.id user.email now)⟩

/-- UTF-8 bytes of a code point, as natural numbers. -/
def utf8Bytes (n : Nat) : List Nat :=
  if n < 128 then [n]
  else if n < 2048 then [192 + n / 64, 128 + n % 64]
  else if n < 65536 then [224 + n / 4096, 128 + (n / 64) % 64, 128 + n % 64]
  else [240 + n / 262144, 128 + (n / 4096) % 64, 128 + (n / 64) % 64, 128 + n % 64]

/-- Uppercase hex digit of a value below 16. -/
def hexDigit (n : Nat) : Char :=
  if n < 10 then Char.ofNat (48 + n) else Char.ofNat (55 + n)

/-- Percent-encoding of one byte, "%XX". -/
def percentByte (b : Nat) : List Char :=
  ['%', hexDigit (b / 16), hexDigit (b % 16)]

/-- application/x-www-form-urlencoded encoding of one character, as
URLSearchParams.toString performs it: ASCII alphanumerics and * - . _
kept, space becomes '+', everything else percent-encoded per UTF-8
byte. -/
def formEncodeChar (c : Char) : List Char :=
  if c.isAlphanum ∨ c = '*' ∨ c = '-' ∨ c = '.' ∨ c = '_' then [c]
  else if c = ' ' then ['+']
  else (utf8Bytes c.toNat).foldr (fun b acc => percentByte b ++ acc) []

/-- form-urlencoded encoding of a string. -/
def formEncode (s : String) : String :=
  String.mk (s.data.foldr (fun c acc => formEncodeChar c ++ acc) [])

/-- URLSearchParams.toString on an ordered list of key/value pairs. -/
def serializeParams (ps : List (String × String)) : String :=
  String.intercalate "&" (ps.map (fun p => formEncode p.1 ++ "=" ++ formEncode p.2))

/-- Stringification of an environment value interpolated where JS expects
a string: an unset value stringifies as "undefined". -/
def envString (o : Option String) : String :=
  match o with
  | some s => s
  | none => "undefined"

/-- `googleAuthCtrl`: 500 when GOOGLE_OAUTH_REDIRECT_URL is falsy,
otherwise a redirect to Google's authorization endpoint with the
URLSearchParams built in source order. -/
def googleAuthCtrl (redirectUrlEnv clientIdEnv : Option String) : Response :=
  if falsyStr redirectUrlEnv then
    ⟨500, [], .msg "Error interno de configuración"⟩
  else
    ⟨302, [],
      .redirect ("https://accounts.google.com/o/oauth2/v2/auth?" ++
        serializeParams
          [("redirect_uri", envString redirectUrlEnv),
            ("client_id", envString clientIdEnv),
            ("access_type", "offline"),
            ("response_type", "code"),
            ("prompt", "consent"),
            ("scope",
              "https://www.googleapis.com/auth/userinfo.profile https://www.googleapis.com/auth/userinfo.email openid")])⟩

/-- What `googleAuth(code)` resolves to on success: the local user and
the freshly minted token pair, as opaque strings to this handler. -/
structure AuthData where
  user : User
  token : String
  refreshToken : String
deriving DecidableEq

/-- `googleAuthCallback`: 400 on a falsy code, redirect to the login
error pages on a null result or a rejected promise, and on success the
two session cookies followed by a redirect to the frontend carrying the
token and email as query parameters. -/
def googleAuthCallback (googleAuth : String → Except String (Option AuthData))
    (code : Option String) : Response :=
  if falsyStr code then ⟨400, [], .msg "Código de autorización faltante"⟩
  else
    match googleAuth (code.getD "") with
    | .error _ => ⟨302, [], .redirect "/login?error=server_error"⟩
    | .ok none => ⟨302, [], .redirect "/login?error=authentication_failed"⟩
    | .ok (some authData) =>
      ⟨302,
        [⟨"token", authData.token, true, false, "none", 86400000⟩,
          ⟨"refreshToken", authData.refreshToken, true, false, "none", 7 * 24 * 60 * 60 * 1000⟩],
        .redirect ("http://localhost:4200/?token=" ++ authData.token ++ "&email=" ++
          authData.user.email)⟩

set_option maxRecDepth 20000

/-- C1: for every id and email, verifying an access token produced by
generateToken(id, email) with verifyToken, before the token's 1-hour
expiry has elapsed and under the same process-wide secret, succeeds and
returns a payload whose id and email fields equal the inputs. -/
theorem claim_C1_mint_verify_roundtrip (env : Option String) (id email : String) (now t : Nat)
    (h : t < now + 3600) :
    verifyToken env (generateToken env id email now) t = Except.ok ⟨some id, some email⟩ := by
  have hnl : ¬ (now + 3600 ≤ t) := by omega
  simp [verifyToken, generateToken, sign, verify, hnl]

/-- Witness for C1 at id "u1", email "a@x.com", issuance 0, check at 3599. -/
theorem claim_C1_witness :
    verifyToken none (generateToken none "u1" "a@x.com" 0) 3599 =
      Except.ok ⟨some "u1", some "a@x.com"⟩ :=
  claim_C1_mint_verify_roundtrip none "u1" "a@x.com" 0 3599 (by decide)

/-- C2: every access token minted by generateToken expires exactly 1 hour
(3600 s) after issuance, every refresh token minted by
generateRefreshToken expires exactly 7 days (604800 s) after issuance,
and a token minted with expiry e fails verification at any time once e
has elapsed. -/
theorem claim_C2_expiry_policy (env : Option String) (id email : String) (now u : Nat) :
    (generateToken env id email now).expiry = now + 3600 ∧
    (generateRefreshToken env id now).expiry = now + 604800 ∧
    (now + 3600 ≤ u →
      verifyToken env (generateToken env id email now) u = Except.error JwtError.expired) ∧
    (now + 604800 ≤ u →
      verifyRefreshToken env (generateRefreshToken env id now) u = none) := by
  refine ⟨rfl, rfl, fun h => ?_, fun h => ?_⟩ <;>
    simp [verifyToken, verifyRefreshToken, generateToken, generateRefreshToken, sign, verify, h]

/-- Witness for C2: both tokens minted at 0 fail verification once their
respective lifetimes have elapsed. -/
theorem claim_C2_witness :
    verifyToken none (generateToken none "u1" "a@x.com" 0) 3600 = Except.error JwtError.expired ∧
    verifyRefreshToken none (generateRefreshToken none "u1" 0) 604800 = none :=
  ⟨(claim_C2_expiry_policy none "u1" "a@x.com" 0 3600).2.2.1 (by decide),
    (claim_C2_expiry_policy none "u1" "a@x.com" 0 604800).2.2.2 (by decide)⟩

/-- C3: the POST /auth/refresh handler answers 400 when the body carries
no refreshToken; 401 when the supplied token is malformed, signed with a
different secret, or expired; 401 when the token verifies but the user
lookup finds nobody; and when the token verifies and the user exists, a
200 response whose body is exactly one newly minted access token for the
stored user's id and email, with no cookie set and no rotated refresh
token in the response. -/
theorem claim_C3_refresh_responses (env : Option String)
    (findById : String → Except String (Option User)) (t : Nat) :
    refreshPost findById env t none = ⟨400, [], .msg "Refresh token es requerido"⟩ ∧
    (∀ raw, refreshPost findById env t (some (Token.malformed raw)) =
      ⟨401, [], .msg "Refresh token inválido o expirado"⟩) ∧
    (∀ claims secret e, secret ≠ JWT_SECRET env →
      refreshPost findById env t (some (Token.signed claims secret e)) =
        ⟨401, [], .msg "Refresh token inválido o expirado"⟩) ∧
    (∀ claims secret e, e ≤ t →
      refreshPost findById env t (some (Token.signed claims secret e)) =
        ⟨401, [], .msg "Refresh token inválido o expirado"⟩) ∧
    (∀ tok p pid, verifyRefreshToken env tok t = some p → p.id = some pid →
      findById pid = Except.ok none →
      refreshPost findById env t (some tok) = ⟨401, [], .msg "Usuario no encontrado"⟩) ∧
    (∀ tok p pid user, verifyRefreshToken env tok t = some p → p.id = some pid →
      findById pid = Except.ok (some user) →
      refreshPost findById env t (some tok) =
        ⟨200, [], .newToken (generateToken env user.id user.email t)⟩) := by
  refine ⟨rfl, fun raw => rfl, fun claims secret e hs => ?_, fun claims secret e he => ?_,
    fun tok p pid hv hid hf => ?_, fun tok p pid user hv hid hf => ?_⟩
  · simp [refreshPost, verifyRefreshToken, verify, hs]
  · by_cases hsec : secret = JWT_SECRET env <;>
      simp [refreshPost, verifyRefreshToken, verify, hsec, he]
  · simp [refreshPost, hv, hid, hf]
  · simp [refreshPost, hv, hid, hf]

/-- Witness for C3: a valid refresh token for user u1, who exists in the
store, yields 200 with a fresh access token. -/
theorem claim_C3_witness :
    refreshPost (fun uid => if uid = "u1" then Except.ok (some ⟨"u1", "a@x.com"⟩) else Except.ok none)
      none 5 (some (Token.signed ⟨some "u1", none⟩ (JWT_SECRET none) 10)) =
      ⟨200, [], .newToken (generateToken none "u1" "a@x.com" 5)⟩ :=
  (claim_C3_refresh_responses none
      (fun uid => if uid = "u1" then Except.ok (some ⟨"u1", "a@x.com"⟩) else Except.ok none) 5).2.2.2.2.2
    (Token.signed ⟨some "u1", none⟩ (JWT_SECRET none) 10) ⟨some "u1", none⟩ "u1" ⟨"u1", "a@x.com"⟩
    rfl rfl rfl

/-- C4: loginCtrl answers 403 with body message "Contraseña incorrecta"
on the wrong-password outcome and 404 on the user-not-found outcome, and
the two are mutually exclusive: 403 appears exactly on the wrong-password
outcome and 404 exactly on the user-not-found outcome. -/
theorem claim_C4_login_error_mapping :
    loginCtrl (Except.ok LoginResult.incorrectPassword) =
      ⟨403, [], .msg "Contraseña incorrecta"⟩ ∧
    (loginCtrl (Except.ok LoginResult.notFoundUser)).status = 404 ∧
    ∀ r : LoginResult,
      ((loginCtrl (Except.ok r)).status = 403 ↔ r = LoginResult.incorrectPassword) ∧
      ((loginCtrl (Except.ok r)).status = 404 ↔ r = LoginResult.notFoundUser) := by
  refine ⟨rfl, rfl, fun r => ?_⟩
  cases r <;> simp [loginCtrl]

/-- C5: an access token minted by generateToken, submitted before its
1-hour expiry as the refreshToken of POST /auth/refresh, is accepted when
the user with that id exists: same secret for both token kinds, and the
handler only requires the verified payload to carry an id field. -/
theorem claim_C5_access_token_accepted_as_refresh (env : Option String) (id email : String)
    (now t : Nat) (findById : String → Except String (Option User)) (user : User)
    (hexp : t < now + 3600) (huser : findById id = Except.ok (some user)) :
    refreshPost findById env t (some (generateToken env id email now)) =
      ⟨200, [], .newToken (generateToken env user.id user.email t)⟩ := by
  have hnl : ¬ (now + 3600 ≤ t) := by omega
  simp [refreshPost, verifyRefreshToken, generateToken, sign, verify, hnl, huser]

/-- Witness for C5: the access token for u1 minted at time 0 is accepted
by the refresh route at time 100. -/
theorem claim_C5_witness :
    refreshPost (fun uid => if uid = "u1" then Except.ok (some ⟨"u1", "b@x.com"⟩) else Except.ok none)
      none 100 (some (generateToken none "u1" "a@x.com" 0)) =
      ⟨200, [], .newToken (generateToken none "u1" "b@x.com" 100)⟩ :=
  claim_C5_access_token_accepted_as_refresh none "u1" "a@x.com" 0 100
    (fun uid => if uid = "u1" then Except.ok (some ⟨"u1", "b@x.com"⟩) else Except.ok none)
    ⟨"u1", "b@x.com"⟩ (by decide) rfl

/-- C6: verifyRefreshToken never propagates a verification failure: every
failing verify outcome (malformed, invalid signature, expired) is mapped
to none, and a succeeding verify outcome is returned as its decoded
payload. -/
theorem claim_C6_refresh_verify_total (env : Option String) (t : Token) (now : Nat) :
    (∀ e, verify t (JWT_SECRET env) now = Except.error e →
      verifyRefreshToken env t now = none) ∧
    (∀ p, verify t (JWT_SECRET env) now = Except.ok p →
      verifyRefreshToken env t now = some p) := by
  constructor <;> intro x hx <;> simp [verifyRefreshToken, hx]

/-- Witness for C6: a token signed under a different secret yields none,
and a valid token yields its payload. -/
theorem claim_C6_witness :
    verifyRefreshToken none (Token.signed ⟨some "u1", none⟩ "other" 10) 0 = none ∧
    verifyRefreshToken none (Token.signed ⟨some "u1", none⟩ (JWT_SECRET none) 10) 0 =
      some ⟨some "u1", none⟩ :=
  ⟨(claim_C6_refresh_verify_total none (Token.signed ⟨some "u1", none⟩ "other" 10) 0).1
      JwtError.invalidSignature rfl,
    (claim_C6_refresh_verify_total none (Token.signed ⟨some "u1", none⟩ (JWT_SECRET none) 10) 0).2
      ⟨some "u1", none⟩ rfl⟩

/-- C7: a successful login sets exactly the two cookies token (max-age
86400000 ms) and refreshToken (max-age 604800000 ms), returns the user
and both tokens in the body, and the token cookie's 1-day max-age
exceeds the access token's embedded 1-hour lifetime. -/
theorem claim_C7_login_success_cookies (u : User) (tok rtok : String) (env : Option String)
    (id email : String) (now : Nat) :
    loginCtrl (Except.ok (LoginResult.authenticated u tok rtok)) =
      ⟨200,
        [⟨"token", tok, true, false, "none", 86400000⟩,
          ⟨"refreshToken", rtok, true, false, "none", 604800000⟩],
        .loginOk u tok rtok⟩ ∧
    ((generateToken env id email now).expiry - now) * 1000 < 86400000 := by
  constructor
  · rfl
  · have hx : (generateToken env id email now).expiry = now + 3600 := rfl
    rw [hx]
    omega

/-- C8 counterexample: an internal failure with message "boom" inside the
refresh handler produces 500 whose body is the fixed message
"Error interno del servidor", not the error's message verbatim. -/
theorem claim_C8_counterexample :
    refreshPost (fun _ => Except.error "boom") none 0
        (some (Token.signed ⟨some "u1", none⟩ (JWT_SECRET none) 10)) =
      ⟨500, [], .msg "Error interno del servidor"⟩ ∧
    (refreshPost (fun _ => Except.error "boom") none 0
        (some (Token.signed ⟨some "u1", none⟩ (JWT_SECRET none) 10))).body ≠
      RespBody.msg "boom" := by
  constructor <;> decide

/-- C8 amended: an internal failure yields status 500 in all three
handlers; register and login surface the error's message verbatim, while
the refresh handler answers with the fixed body message
"Error interno del servidor". -/
theorem claim_C8_internal_failures (m : String) (env : Option String) (now : Nat)
    (tok : Token) (claims : JwtClaims) (pid : String)
    (findById : String → Except String (Option User)) :
    registerCtrl (Except.error m) = ⟨500, [], .msg m⟩ ∧
    loginCtrl (Except.error m) = ⟨500, [], .msg m⟩ ∧
    (verifyRefreshToken env tok now = some claims → claims.id = some pid →
      findById pid = Except.error m →
      refreshPost findById env now (some tok) =
        ⟨500, [], .msg "Error interno del servidor"⟩) := by
  refine ⟨rfl, rfl, fun hv hid hf => ?_⟩
  simp [refreshPost, hv, hid, hf]

/-- Witness for the amended C8 at message "boom". -/
theorem claim_C8_witness :
    registerCtrl (Except.error "boom") = ⟨500, [], .msg "boom"⟩ ∧
    loginCtrl (Except.error "boom") = ⟨500, [], .msg "boom"⟩ ∧
    refreshPost (fun _ => Except.error "boom") none 0
        (some (Token.signed ⟨some "u1", none⟩ (JWT_SECRET none) 10)) =
      ⟨500, [], .msg "Error interno del servidor"⟩ :=
  ⟨(claim_C8_internal_failures "boom" none 0 (Token.signed ⟨some "u1", none⟩ (JWT_SECRET none) 10)
      ⟨some "u1", none⟩ "u1" (fun _ => Except.error "boom")).1,
    (claim_C8_internal_failures "boom" none 0 (Token.signed ⟨some "u1", none⟩ (JWT_SECRET none) 10)
      ⟨some "u1", none⟩ "u1" (fun _ => Except.error "boom")).2.1,
    (claim_C8_internal_failures "boom" none 0 (Token.signed ⟨some "u1", none⟩ (JWT_SECRET none) 10)
      ⟨some "u1", none⟩ "u1" (fun _ => Except.error "boom")).2.2 rfl rfl rfl⟩

/-- C9 counterexample: GOOGLE_OAUTH_REDIRECT_URL set to the empty string
is not unset, yet the handler answers 500 and does not redirect, against
the claim's "otherwise it redirects". -/
theorem claim_C9_counterexample :
    googleAuthCtrl (some "") (some "cid") = ⟨500, [], .msg "Error interno de configuración"⟩ ∧
    (googleAuthCtrl (some "") (some "cid")).status ≠ 302 := by
  constructor <;> decide

/-- C9 amended: with GOOGLE_OAUTH_REDIRECT_URL unset or empty (JS falsy)
the handler answers 500 with message "Error interno de configuración"
and no redirect; with it set non-empty it answers a 302 redirect to
Google's authorization endpoint carrying the fixed parameters
response_type=code, access_type=offline, prompt=consent and the
profile+email+openid scope, form-urlencoded in source order. -/
theorem claim_C9_google_auth_redirect (clientIdEnv : Option String) :
    googleAuthCtrl none clientIdEnv = ⟨500, [], .msg "Error interno de configuración"⟩ ∧
    googleAuthCtrl (some "") clientIdEnv = ⟨500, [], .msg "Error interno de configuración"⟩ ∧
    ∀ uri : String, uri ≠ "" →
      googleAuthCtrl (some uri) clientIdEnv =
        ⟨302, [],
          .redirect ("https://accounts.google.com/o/oauth2/v2/auth?redirect_uri="
            ++ formEncode uri ++ "&client_id=" ++ formEncode (envString clientIdEnv)
            ++ "&access_type=offline&response_type=code&prompt=consent&scope=https%3A%2F%2Fwww.googleapis.com%2Fauth%2Fuserinfo.profile+https%3A%2F%2Fwww.googleapis.com%2Fauth%2Fuserinfo.email+openid")⟩ := by
  refine ⟨rfl, rfl, fun uri h => ?_⟩
  have hf : falsyStr (some uri) = false := by simp [falsyStr, h]
  simp only [googleAuthCtrl, hf, Bool.false_eq_true, if_false, serializeParams,
    List.map, String.intercalate]
  simp [String.intercalate.go, String.append_assoc, envString]
  rw [show formEncode "redirect_uri" = "redirect_uri" from rfl,
    show formEncode "client_id" = "client_id" from rfl,
    show formEncode "access_type" = "access_type" from rfl,
    show formEncode "offline" = "offline" from rfl,
    show formEncode "response_type" = "response_type" from rfl,
    show formEncode "code" = "code" from rfl,
    show formEncode "prompt" = "prompt" from rfl,
    show formEncode "consent" = "consent" from rfl,
    show formEncode "scope" = "scope" from rfl,
    show formEncode "https://www.googleapis.com/auth/userinfo.profile https://www.googleapis.com/auth/userinfo.email openid" = "https%3A%2F%2Fwww.googleapis.com%2Fauth%2Fuserinfo.profile+https%3A%2F%2Fwww.googleapis.com%2Fauth%2Fuserinfo.email+openid" from rfl]
  apply String.ext
  simp only [String.data_append]
  norm_num [List.append_assoc]

/-- Witness for C9 with a concrete redirect URL and client id. -/
theorem claim_C9_witness :
    googleAuthCtrl (some "http://cb") (some "cid") =
      ⟨302, [],
        .redirect "https://accounts.google.com/o/oauth2/v2/auth?redirect_uri=http%3A%2F%2Fcb&client_id=cid&access_type=offline&response_type=code&prompt=consent&scope=https%3A%2F%2Fwww.googleapis.com%2Fauth%2Fuserinfo.profile+https%3A%2F%2Fwww.googleapis.com%2Fauth%2Fuserinfo.email+openid"⟩ :=
  ((claim_C9_google_auth_redirect (some "cid")).2.2 "http://cb" (by decide)).trans (by rfl)

/-- C10: on a successful Google OAuth callback the handler sets the two
session cookies and redirects (302) to http://localhost:4200/ with the
minted token and the user's email embedded as query-string parameters. -/
theorem claim_C10_google_callback (ga : String → Except String (Option AuthData))
    (code : String) (ad : AuthData) (hcode : code ≠ "")
    (hga : ga code = Except.ok (some ad)) :
    googleAuthCallback ga (some code) =
      ⟨302,
        [⟨"token", ad.token, true, false, "none", 86400000⟩,
          ⟨"refreshToken", ad.refreshToken, true, false, "none", 604800000⟩],
        .redirect ("http://localhost:4200/?token=" ++ ad.token ++ "&email=" ++
          ad.user.email)⟩ := by
  simp [googleAuthCallback, falsyStr, hcode, hga]

/-- Witness for C10: a concrete successful callback. -/
theorem claim_C10_witness :
    googleAuthCallback
      (fun c => if c = "abc" then Except.ok (some ⟨⟨"u1", "a@x.com"⟩, "tokstr", "rtokstr"⟩)
        else Except.ok none)
      (some "abc") =
      ⟨302,
        [⟨"token", "tokstr", true, false, "none", 86400000⟩,
          ⟨"refreshToken", "rtokstr", true, false, "none", 604800000⟩],
        .redirect "http://localhost:4200/?token=tokstr&email=a@x.com"⟩ :=
  (claim_C10_google_callback
    (fun c => if c = "abc" then Except.ok (some ⟨⟨"u1", "a@x.com"⟩, "tokstr", "rtokstr"⟩)
      else Except.ok none)
    "abc" ⟨⟨"u1", "a@x.com"⟩, "tokstr", "rtokstr"⟩ (by decide) rfl).trans (by rfl)

end SeminariJWT
